import Mathlib

/-!
Shallow embedding of the session/connection gateway of the
whatspp-service-glidpa repository.

The embedding follows `src/pkg/whatsapp/client.go` (the authoritative,
later client-wrapper variant), `src/internal/usecases/whatsapp_auth.go`
and `src/internal/usecases/booking_usecase.go`.

Modelling conventions:
  * the `connected` boolean flag, the device credential (`Store.ID` /
    `deviceStore.ID`, modelled as the boolean `loggedIn`: the credential
    exists or it does not) and the capacity-one `qrChan` channel
    (modelled as `Option String`: the single slot is empty or holds one
    code) form the `ClientState`;
  * the outcomes of the opaque whatsmeow primitives
    (`client.Connect`, `client.Logout`, `deviceStore.Delete`,
    `client.SendMessage`) are passed in as `Except String _` parameters,
    so every code path of the wrapper is a total function of the state
    and of those outcomes;
  * event handling is sequential (the `qrMutex` serialises the QR
    branch of `handleEvent`); the codes published while a consumer is
    waiting inside `GenerateQR` are passed as a list `arrivals`, in
    arrival order;
  * Go error values built with `errors.New` / `fmt.Errorf` are modelled
    as constructors of small inductive types, one constructor per
    distinct error site, carrying the wrapped message where the source
    wraps one.
-/

namespace Glidpa

/-- Errors produced by the client wrapper `src/pkg/whatsapp/client.go`.
`connectFailed` is `"failed to connect: %w"`, `logoutFailed` is
`"failed to logout: %w"`, `deleteFailed` is `"failed to delete device: %w"`,
`notConnected` is `"client is not connected"` and `sendFailed` is
`"failed to send message: %w"`. -/
inductive WErr where
  | connectFailed (msg : String)
  | logoutFailed (msg : String)
  | deleteFailed (msg : String)
  | notConnected
  | sendFailed (msg : String)
deriving Repr, DecidableEq

/-- State of the wrapped client (`Client` in `src/pkg/whatsapp/client.go`):
`loggedIn` is the existence of the device credential (`Store.ID != nil`),
`connected` is the flag guarded by `connectedMu`, and `qrSlot` is the
content of the capacity-one `qrChan` channel. -/
structure ClientState where
  loggedIn : Bool
  connected : Bool
  qrSlot : Option String
deriving Repr, DecidableEq

/-- `IsConnected` of `client.go`. -/
def isConnected (c : ClientState) : Bool := c.connected

/-- `IsLoggedIn` of `client.go`: the device credential exists. -/
def isLoggedIn (c : ClientState) : Bool := c.loggedIn

/-- `setConnected` of `client.go`. -/
def setConnected (c : ClientState) (b : Bool) : ClientState :=
  { c with connected := b }

/-- `Connect` of `client.go`: no-op when already connected, otherwise
delegates to the underlying `client.Connect` (whose outcome is the
`transport` parameter) and marks the state connected on success. -/
def connect (c : ClientState) (transport : Except String Unit) :
    Except WErr ClientState :=
  if isConnected c then Except.ok c
  else
    match transport with
    | Except.ok _ => Except.ok (setConnected c true)
    | Except.error e => Except.error (WErr.connectFailed e)

/-- Result of `Logout` of `client.go`, together with the two
observability bits the spec talks about: whether the remote protocol
logout was invoked and whether the credential deletion was attempted. -/
structure LogoutTrace where
  result : Except WErr Unit
  state : ClientState
  remoteCalled : Bool
  deleteAttempted : Bool

/-- `Logout` of `client.go`: returns success immediately when no device
credential exists; otherwise, when connected, first performs the remote
logout (outcome `remote`) and returns its failure without touching the
store; only after a successful remote logout (or when not connected) is
the credential deletion (outcome `deleteOutcome`) attempted. -/
def logout (c : ClientState) (remote : Except String Unit)
    (deleteOutcome : Except String Unit) : LogoutTrace :=
  if c.loggedIn = false then
    ⟨Except.ok (), c, false, false⟩
  else if isConnected c then
    match remote with
    | Except.error e => ⟨Except.error (WErr.logoutFailed e), c, true, false⟩
    | Except.ok _ =>
      let c1 := setConnected c false
      match deleteOutcome with
      | Except.error e => ⟨Except.error (WErr.deleteFailed e), c1, true, true⟩
      | Except.ok _ => ⟨Except.ok (), { c1 with loggedIn := false }, true, true⟩
  else
    match deleteOutcome with
    | Except.error e => ⟨Except.error (WErr.deleteFailed e), c, false, true⟩
    | Except.ok _ => ⟨Except.ok (), { c with loggedIn := false }, false, true⟩

/-- Result of `Send` of `client.go`, with the bit recording whether the
underlying `client.SendMessage` primitive was invoked. -/
structure SendTrace where
  result : Except WErr String
  primitiveCalled : Bool

/-- `Send` of `client.go`: fails fast with `notConnected` when the
connection flag is down, without invoking the underlying send primitive;
otherwise delegates (outcome `underlying`, carrying the assigned message
identifier on success). -/
def send (c : ClientState) (underlying : Except String String) : SendTrace :=
  if isConnected c = false then ⟨Except.error WErr.notConnected, false⟩
  else
    match underlying with
    | Except.ok msgID => ⟨Except.ok msgID, true⟩
    | Except.error e => ⟨Except.error (WErr.sendFailed e), true⟩

/-- The `events.QR` branch of `handleEvent` in `client.go`: first the
non-blocking drain (`select` with `default`) empties the slot if it
holds an old code, then the new code is sent; the fallback
drain-and-retry branch of the source (taken only if the first send found
the slot full, impossible after the drain under the `qrMutex`) also ends
with the new code in the slot. -/
def handleQR (slot : Option String) (code : String) : Option String :=
  let afterDrain : Option String :=
    match slot with
    | some _ => none
    | none => slot
  match afterDrain with
  | none => some code
  | some _ => some code

/-- Folding a sequence of pairing-code publications into the mailbox,
each via the `events.QR` branch of `handleEvent`. -/
def publishAll (slot : Option String) (codes : List String) : Option String :=
  codes.foldl handleQR slot

/-- `WhatsAppMessage` of `client.go`: the derived higher-level
"message received" event. -/
structure WhatsAppMessage where
  From : String
  Body : String
deriving Repr, DecidableEq

/-- The protocol events handled by `handleEvent` of `client.go`:
`events.Connected`, `events.Disconnected`, `events.QR` (carrying
`v.Codes[0]`), `events.LoggedOut` and `events.Message` (carrying the
sender, the `Conversation` field, and the optional extended-text
message whose text is the `GetText()` value). -/
inductive WAEvent where
  | connectedEv
  | disconnectedEv
  | qr (code : String)
  | loggedOut
  | message (sender : String) (conversation : String) (extendedText : Option String)
deriving Repr, DecidableEq

/-- A payload delivered to a registered consumer: either the original
protocol event or the derived `WhatsAppMessage`. -/
inductive Payload where
  | original (ev : WAEvent)
  | derived (m : WhatsAppMessage)
deriving Repr, DecidableEq

/-- The content-extraction step of the `events.Message` branch of
`handleEvent`: the `Conversation` field when non-empty, otherwise the
extended-text message's text when present and non-empty, otherwise
empty. -/
def extractBody (conversation : String) (extendedText : Option String) : String :=
  if conversation ≠ "" then conversation
  else
    match extendedText with
    | some t => if t ≠ "" then t else ""
    | none => ""

/-- Fan-out of one payload to every registered handler (the
`for _, handler := range c.handlers { go handler(...) }` loops);
handlers are identified by their registration index. -/
def fanout (handlers : List Nat) (p : Payload) : List (Nat × Payload) :=
  handlers.map (fun h => (h, p))

/-- Outcome of one `handleEvent` call: the updated state, the list of
(handler, payload) deliveries it spawns, and the number of delayed
reconnect attempts it schedules. -/
structure EventOutcome where
  state : ClientState
  dispatched : List (Nat × Payload)
  reconnectsScheduled : Nat

/-- `handleEvent` of `client.go`: updates the connection flag on
`Connected` / `Disconnected` / `LoggedOut`, schedules one delayed
reconnect goroutine on `Disconnected`, publishes into the mailbox on
`QR`, extracts content and fans out the derived message (when non-empty)
on `Message`, and always fans out the original event to every
registered handler. -/
def handleEvent (c : ClientState) (handlers : List Nat) (ev : WAEvent) :
    EventOutcome :=
  match ev with
  | WAEvent.connectedEv =>
      ⟨setConnected c true, fanout handlers (Payload.original ev), 0⟩
  | WAEvent.disconnectedEv =>
      ⟨setConnected c false, fanout handlers (Payload.original ev), 1⟩
  | WAEvent.qr code =>
      ⟨{ c with qrSlot := handleQR c.qrSlot code },
       fanout handlers (Payload.original ev), 0⟩
  | WAEvent.loggedOut =>
      ⟨setConnected c false, fanout handlers (Payload.original ev), 0⟩
  | WAEvent.message sender conv ext =>
      let body := extractBody conv ext
      let derivedPart :=
        if body ≠ "" then fanout handlers (Payload.derived ⟨sender, body⟩)
        else []
      ⟨c, derivedPart ++ fanout handlers (Payload.original ev), 0⟩

/-- The delayed reconnect goroutine spawned by the `events.Disconnected`
branch of `handleEvent`: after the delay it calls `Connect` once; a
failure is only logged, and the second component counts the further
automatic attempts it schedules (always zero). -/
def reconnectAttempt (c : ClientState) (transport : Except String Unit) :
    ClientState × Nat :=
  match connect c transport with
  | Except.ok c1 => (c1, 0)
  | Except.error _ => (c, 0)

/-- State of `WhatsAppAuthUseCase` in
`src/internal/usecases/whatsapp_auth.go`: the two cached QR-code string
fields. -/
structure AuthState where
  qrCodeCache : String
  QRCodeCache : String
deriving Repr, DecidableEq

/-- Errors returned by `GenerateQR` of `whatsapp_auth.go`:
`alreadyLoggedIn` is `"already logged in"`, `connectFailed` wraps the
client connect error as `"failed to connect to WhatsApp: %w"`,
`emptyQRCode` is `"received empty QR code from WhatsApp"` and
`qrTimeout` is `"timeout waiting for QR code"`. -/
inductive AuthErr where
  | alreadyLoggedIn
  | connectFailed (e : WErr)
  | emptyQRCode
  | qrTimeout
deriving Repr, DecidableEq

/-- Outcome of `GenerateQR`: the returned value, the use-case state and
the client state afterwards. -/
structure GenQROutcome where
  result : Except AuthErr String
  auth : AuthState
  client : ClientState

/-- The tail of the `select` in `GenerateQR` once a code `qrCode` has
been received from the channel: an empty code is rejected, otherwise it
is cached in both cache fields and returned. -/
def finishQR (u : AuthState) (c : ClientState) (qrCode : String) :
    GenQROutcome :=
  if qrCode = "" then ⟨Except.error AuthErr.emptyQRCode, u, c⟩
  else ⟨Except.ok qrCode, ⟨qrCode, qrCode⟩, c⟩

/-- `GenerateQR` of `whatsapp_auth.go`: fails when already logged in;
otherwise clears both cached code strings, connects when not connected
(outcome `transport`), then blocks on the QR channel with a timeout.
`arrivals` is the ordered sequence of codes published (through the
`events.QR` branch of `handleEvent`) while the caller waits: the caller
receives the code already in the slot if there is one, otherwise the
first arrival; later arrivals land in the mailbox; with an empty slot
and no arrival the wait times out. -/
def generateQR (u : AuthState) (c : ClientState)
    (transport : Except String Unit) (arrivals : List String) :
    GenQROutcome :=
  if isLoggedIn c then ⟨Except.error AuthErr.alreadyLoggedIn, u, c⟩
  else
    let u1 : AuthState := ⟨"", ""⟩
    match connect c transport with
    | Except.error e => ⟨Except.error (AuthErr.connectFailed e), u1, c⟩
    | Except.ok c1 =>
      match c1.qrSlot, arrivals with
      | some q, rest => finishQR u1 { c1 with qrSlot := publishAll none rest } q
      | none, [] => ⟨Except.error AuthErr.qrTimeout, u1, c1⟩
      | none, q :: rest =>
          finishQR u1 { c1 with qrSlot := publishAll none rest } q

/-- Reachable client states: an initial state (freshly created client,
not connected, empty mailbox, with or without a stored credential) or
the result of any operation of the gateway applied to a reachable
state. -/
inductive Reachable : ClientState → Prop where
  | init (b : Bool) : Reachable ⟨b, false, none⟩
  | connectStep (c : ClientState) (tr : Except String Unit) (c1 : ClientState) :
      Reachable c → connect c tr = Except.ok c1 → Reachable c1
  | disconnectStep (c : ClientState) :
      Reachable c → Reachable (setConnected c false)
  | eventStep (c : ClientState) (handlers : List Nat) (ev : WAEvent) :
      Reachable c → Reachable (handleEvent c handlers ev).state
  | logoutStep (c : ClientState) (remote deleteOutcome : Except String Unit) :
      Reachable c → Reachable (logout c remote deleteOutcome).state
  | reconnectStep (c : ClientState) (tr : Except String Unit) :
      Reachable c → Reachable (reconnectAttempt c tr).1
  | genQRStep (u : AuthState) (c : ClientState) (tr : Except String Unit)
      (arrivals : List String) :
      Reachable c → Reachable (generateQR u c tr arrivals).client

/-- Does the character list `s` begin with the character list `pat`?
Helper for the byte-level `strings.Contains`; on well-formed UTF-8 text
and the patterns used here, byte containment and character-sequence
containment coincide. -/
def beginsWith : List Char → List Char → Bool
  | _, [] => true
  | [], _ :: _ => false
  | c :: cs, p :: ps => c == p && beginsWith cs ps

/-- Does the character list `s` contain the character list `pat` as a
contiguous subsequence? -/
def containsSeq : List Char → List Char → Bool
  | [], pat => beginsWith [] pat
  | c :: rest, pat => beginsWith (c :: rest) pat || containsSeq rest pat

/-- `strings.Contains(s, pat)` of the Go standard library, on the
character sequences of the two strings. -/
def containsSub (s pat : String) : Bool := containsSeq s.data pat.data

/-- `unicode.ToLower` as applied by `strings.ToLower`, on ASCII, on the
Latin-1 block and on `İ` (U+0130): `A`-`Z` and the accented Latin-1
capitals `À`-`Þ` (except the multiplication sign) are lowered by adding
32, and `İ` has the Unicode simple lower mapping `i` (U+0069); on all
of these the function agrees exactly with Go. Every other character is
left unchanged. The keyword matching of `booking_usecase.go` only ever
compares lowered characters against `s`, `i`, `í`, `n`, `o`; the only
Unicode characters whose simple lower mapping is one of those five are
`S`, `I`, `İ`, `Í`, `N`, `O` (all mapped here as Go maps them), and the
five characters themselves are fixed by Go's lowering as they are here,
so the keyword containment — and with it the classification — computed
from this mapping coincides with the program's on every message
body. -/
def charLowerGo (ch : Char) : Char :=
  if 'A' ≤ ch ∧ ch ≤ 'Z' then Char.ofNat (ch.toNat + 32)
  else if 'À' ≤ ch ∧ ch ≤ 'Þ' ∧ ch ≠ '×' then Char.ofNat (ch.toNat + 32)
  else if ch = 'İ' then 'i'
  else ch

/-- `strings.ToLower` of the Go standard library (per-character simple
lowering, `charLowerGo` on each character). -/
def toLowerGo (s : String) : String := String.mk (s.data.map charLowerGo)

/-- Confirmation reply of `ProcessIncomingMessage` in
`src/internal/usecases/booking_usecase.go`. -/
def confirmResponse : String :=
  "¡Gracias por confirmar tu cita! Te esperamos en la fecha y hora acordada. 😊"

/-- Cancellation reply of `ProcessIncomingMessage`. -/
def cancelResponse : String :=
  "Hemos cancelado tu cita. Si deseas reagendarla, por favor contáctanos. ¡Gracias!"

/-- Unrecognised-reply message of `ProcessIncomingMessage`. -/
def unknownResponse : String :=
  "No entendimos tu respuesta. Por favor, responde \x27Sí\x27 para confirmar o \x27No\x27 para cancelar tu cita."

/-- The keyword-matching `switch` of `ProcessIncomingMessage`: the
message body is lowered, then matched for the substrings `sí` / `si`
(confirmation, checked first), then `no` (cancellation), with an
unknown fallback. Returns the reply text and the status. -/
def classifyBookingResponse (messageBody : String) : String × String :=
  let normalizedMessage := toLowerGo messageBody
  if containsSub normalizedMessage "sí" || containsSub normalizedMessage "si" then
    (confirmResponse, "confirmed")
  else if containsSub normalizedMessage "no" then
    (cancelResponse, "cancelled")
  else
    (unknownResponse, "unknown")

/-- Errors of `ProcessIncomingMessage`: `notConnected` is
`"WhatsApp client is not connected"` and `sendFailed` wraps the send
error as `"failed to send response message: %w"`. -/
inductive BookErr where
  | notConnected
  | sendFailed (e : WErr)
deriving Repr, DecidableEq

/-- `MessageResponse` of `booking_usecase.go`. -/
structure MessageResponse where
  PhoneNumber : String
  Message : String
  Status : String
deriving Repr, DecidableEq

/-- `ProcessIncomingMessage` of `booking_usecase.go`: rejects when the
client is not connected, classifies the body, sends the reply through
`Send` (underlying outcome `underlying`) and returns the response
record on success. -/
def processIncomingMessage (c : ClientState) (underlying : Except String String)
    (phoneNumber messageBody : String) : Except BookErr MessageResponse :=
  if isConnected c = false then Except.error BookErr.notConnected
  else
    let rs := classifyBookingResponse messageBody
    match (send c underlying).result with
    | Except.error e => Except.error (BookErr.sendFailed e)
    | Except.ok _ => Except.ok ⟨phoneNumber, rs.1, rs.2⟩

/-- Publishing any code into the mailbox always succeeds and leaves
exactly that code in the slot, whatever the slot held before. -/
theorem handleQR_eq (slot : Option String) (code : String) :
    handleQR slot code = some code := by
  cases slot <;> rfl

/-- After a non-empty sequence of publications the mailbox holds exactly
the last published code. -/
theorem publishAll_getLast (codes : List String) :
    ∀ (slot : Option String) (q : String),
      codes.getLast? = some q → publishAll slot codes = some q := by
  induction codes with
  | nil => intro slot q h; simp at h
  | cons a rest ih =>
    intro slot q h
    cases rest with
    | nil =>
      simp at h
      subst h
      simp [publishAll, handleQR_eq]
    | cons b rest2 =>
      rw [List.getLast?_cons_cons] at h
      have h2 := ih (handleQR slot a) q h
      simpa [publishAll] using h2

/-- A successful `connect` never touches the mailbox slot or the
credential. -/
theorem connect_ok_preserves (c : ClientState) (tr : Except String Unit)
    (c1 : ClientState) (h : connect c tr = Except.ok c1) :
    c1.qrSlot = c.qrSlot ∧ c1.loggedIn = c.loggedIn := by
  unfold connect at h
  by_cases hc : isConnected c = true
  · simp [hc] at h
    subst h
    exact ⟨rfl, rfl⟩
  · simp [hc] at h
    cases tr with
    | ok _ =>
      simp at h
      subst h
      simp [setConnected]
    | error e => simp at h

/-- Connecting an already-connected state is the identity. -/
theorem connect_of_connected (c : ClientState) (tr : Except String Unit)
    (h : c.connected = true) : connect c tr = Except.ok c := by
  simp [connect, isConnected, h]

/-- C1: the pairing-code mailbox is latest-value-wins. A publication
always succeeds (never blocks the producer) and evicts any unconsumed
older code; after any sequence of publications ending with code `q` the
single slot holds exactly `q`; and a `requestPairingCode`
(`GenerateQR`) call made after the last publication, with no further
publications, returns exactly `q`. -/
theorem qr_mailbox_latest_value_wins
    (slot : Option String) (code : String) (u : AuthState) (c : ClientState)
    (codes : List String) (q : String)
    (hlog : c.loggedIn = false) (hconn : c.connected = true)
    (hlast : codes.getLast? = some q) (hq : q ≠ "") :
    handleQR slot code = some code ∧
    publishAll c.qrSlot codes = some q ∧
    (generateQR u { c with qrSlot := publishAll c.qrSlot codes }
        (Except.ok ()) []).result = Except.ok q := by
  obtain ⟨cl, cc, cs⟩ := c
  have h1 : cl = false := hlog
  have h2 : cc = true := hconn
  subst h1; subst h2
  have hpub := publishAll_getLast codes cs q hlast
  refine ⟨handleQR_eq slot code, hpub, ?_⟩
  show (generateQR u ⟨false, true, publishAll cs codes⟩
      (Except.ok ()) []).result = Except.ok q
  rw [hpub]
  simp [generateQR, isLoggedIn, connect, isConnected, finishQR, hq]

/-- C1 witness. -/
theorem qr_mailbox_latest_value_wins_witness :
    List.getLast? ["Q1", "Q2"] = some "Q2" ∧ ("Q2" : String) ≠ "" ∧
    (handleQR (some "X") "Y" = some "Y" ∧
     publishAll (some "OLD") ["Q1", "Q2"] = some "Q2" ∧
     (generateQR ⟨"", ""⟩ ⟨false, true, publishAll (some "OLD") ["Q1", "Q2"]⟩
        (Except.ok ()) []).result = Except.ok "Q2") :=
  ⟨by decide, by decide,
   qr_mailbox_latest_value_wins (some "X") "Y" ⟨"", ""⟩
     ⟨false, true, some "OLD"⟩ ["Q1", "Q2"] "Q2" rfl rfl (by decide) (by decide)⟩

/-- C2: on a connected session holding a credential, a failing remote
logout call makes `Logout` return the surfaced error, the credential
deletion is not attempted, and the whole state (in particular the
credential) is unchanged. -/
theorem logout_remote_failure_preserves_credential
    (c : ClientState) (e : String) (deleteOutcome : Except String Unit)
    (hcred : c.loggedIn = true) (hconn : c.connected = true) :
    (logout c (Except.error e) deleteOutcome).result =
        Except.error (WErr.logoutFailed e) ∧
    (logout c (Except.error e) deleteOutcome).deleteAttempted = false ∧
    (logout c (Except.error e) deleteOutcome).state = c ∧
    isLoggedIn (logout c (Except.error e) deleteOutcome).state = true := by
  simp [logout, isConnected, isLoggedIn, hcred, hconn]

/-- C2 witness. -/
theorem logout_remote_failure_preserves_credential_witness :
    (⟨true, true, none⟩ : ClientState).loggedIn = true ∧
    (⟨true, true, none⟩ : ClientState).connected = true ∧
    ((logout ⟨true, true, none⟩ (Except.error "boom") (Except.ok ())).result =
        Except.error (WErr.logoutFailed "boom") ∧
     (logout ⟨true, true, none⟩ (Except.error "boom") (Except.ok ())).deleteAttempted = false ∧
     (logout ⟨true, true, none⟩ (Except.error "boom") (Except.ok ())).state = ⟨true, true, none⟩ ∧
     isLoggedIn (logout ⟨true, true, none⟩ (Except.error "boom") (Except.ok ())).state = true) :=
  ⟨rfl, rfl,
   logout_remote_failure_preserves_credential ⟨true, true, none⟩ "boom"
     (Except.ok ()) rfl rfl⟩

/-- C5: `Send` on a not-connected state returns the `notConnected`
error without invoking the underlying send primitive; `Send` on a
connected state whose underlying send succeeds with identifier `msgID`
returns `msgID` with no error (and did invoke the primitive). -/
theorem send_requires_connection
    (c1 c2 : ClientState) (underlying : Except String String) (msgID : String)
    (h1 : c1.connected = false) (h2 : c2.connected = true) :
    send c1 underlying = ⟨Except.error WErr.notConnected, false⟩ ∧
    send c2 (Except.ok msgID) = ⟨Except.ok msgID, true⟩ := by
  constructor
  · simp [send, isConnected, h1]
  · simp [send, isConnected, h2]

/-- C5 witness. -/
theorem send_requires_connection_witness :
    (⟨false, false, none⟩ : ClientState).connected = false ∧
    (⟨true, true, none⟩ : ClientState).connected = true ∧
    (send ⟨false, false, none⟩ (Except.ok "MSG-42") =
        ⟨Except.error WErr.notConnected, false⟩ ∧
     send ⟨true, true, none⟩ (Except.ok "MSG-42") = ⟨Except.ok "MSG-42", true⟩) :=
  ⟨rfl, rfl,
   send_requires_connection ⟨false, false, none⟩ ⟨true, true, none⟩
     (Except.ok "MSG-42") "MSG-42" rfl rfl⟩

/-- C7: `Logout` on a session with no device credential succeeds as a
no-op: success result, no remote protocol logout call, no credential
deletion attempt, state unchanged — whatever the outcomes of the remote
call and of the deletion would have been. -/
theorem logout_without_credential_noop
    (c : ClientState) (remote deleteOutcome : Except String Unit)
    (h : c.loggedIn = false) :
    (logout c remote deleteOutcome).result = Except.ok () ∧
    (logout c remote deleteOutcome).remoteCalled = false ∧
    (logout c remote deleteOutcome).deleteAttempted = false ∧
    (logout c remote deleteOutcome).state = c := by
  simp [logout, h]

/-- C7 witness. -/
theorem logout_without_credential_noop_witness :
    (⟨false, true, none⟩ : ClientState).loggedIn = false ∧
    ((logout ⟨false, true, none⟩ (Except.error "remote") (Except.error "del")).result = Except.ok () ∧
     (logout ⟨false, true, none⟩ (Except.error "remote") (Except.error "del")).remoteCalled = false ∧
     (logout ⟨false, true, none⟩ (Except.error "remote") (Except.error "del")).deleteAttempted = false ∧
     (logout ⟨false, true, none⟩ (Except.error "remote") (Except.error "del")).state = ⟨false, true, none⟩) :=
  ⟨rfl,
   logout_without_credential_noop ⟨false, true, none⟩ (Except.error "remote")
     (Except.error "del") rfl⟩

/-- C3 counterexample: `GenerateQR` on a not-logged-in, connected
session whose mailbox still holds the code `1@AAAA,BBBB==` from a prior
pairing attempt, with zero codes produced after the request
(`arrivals = []`), returns that stale pre-request code — refuting the
claim that the returned code was produced strictly after the request. -/
theorem generateQR_returns_stale_code :
    (generateQR ⟨"", ""⟩ ⟨false, true, some "1@AAAA,BBBB=="⟩
        (Except.ok ()) []).result = Except.ok "1@AAAA,BBBB==" := by
  rfl

/-- C3 amended: `GenerateQR` on a not-logged-in session clears the use
case's cached code string before waiting, but not the client's mailbox:
on every error the caches end up empty, and a successfully returned
code (which is then cached) is either the code already sitting in the
mailbox at request time or, when the mailbox was empty, the first code
published after the request. -/
theorem generateQR_clears_cache_and_returns_latest
    (u : AuthState) (c : ClientState) (tr : Except String Unit)
    (arrivals : List String) (hlog : c.loggedIn = false) :
    (∀ er, (generateQR u c tr arrivals).result = Except.error er →
      (generateQR u c tr arrivals).auth = ⟨"", ""⟩) ∧
    (∀ q, (generateQR u c tr arrivals).result = Except.ok q →
      (generateQR u c tr arrivals).auth = ⟨q, q⟩ ∧
      (c.qrSlot = some q ∨ (c.qrSlot = none ∧ arrivals.head? = some q))) := by
  have hnl : isLoggedIn c = false := hlog
  unfold generateQR
  rw [hnl]
  simp only [Bool.false_eq_true, if_false]
  cases hct : connect c tr with
  | error e => simp
  | ok c1 =>
    obtain ⟨hslot, -⟩ := connect_ok_preserves c tr c1 hct
    cases h1 : c1.qrSlot with
    | some q0 =>
      have hcs : c.qrSlot = some q0 := hslot.symm.trans h1
      by_cases hq0 : q0 = ""
      · subst hq0
        simp [finishQR, h1]
      · simp [finishQR, h1, hq0]
        exact Or.inl hcs
    | none =>
      have hcs : c.qrSlot = none := hslot.symm.trans h1
      cases arrivals with
      | nil => simp [h1]
      | cons a rest =>
        by_cases ha : a = ""
        · subst ha
          simp [finishQR, h1]
        · simp [finishQR, h1, ha]
          exact Or.inr hcs

/-- C3 amended witness. -/
theorem generateQR_clears_cache_and_returns_latest_witness :
    (⟨false, true, none⟩ : ClientState).loggedIn = false ∧
    ((∀ er, (generateQR ⟨"a", "b"⟩ ⟨false, true, none⟩ (Except.ok ()) ["Z"]).result = Except.error er →
       (generateQR ⟨"a", "b"⟩ ⟨false, true, none⟩ (Except.ok ()) ["Z"]).auth = ⟨"", ""⟩) ∧
     (∀ q, (generateQR ⟨"a", "b"⟩ ⟨false, true, none⟩ (Except.ok ()) ["Z"]).result = Except.ok q →
       (generateQR ⟨"a", "b"⟩ ⟨false, true, none⟩ (Except.ok ()) ["Z"]).auth = ⟨q, q⟩ ∧
       ((⟨false, true, none⟩ : ClientState).qrSlot = some q ∨
        ((⟨false, true, none⟩ : ClientState).qrSlot = none ∧
         List.head? ["Z"] = some q)))) :=
  ⟨rfl,
   generateQR_clears_cache_and_returns_latest ⟨"a", "b"⟩ ⟨false, true, none⟩
     (Except.ok ()) ["Z"] rfl⟩

/-- C4 counterexample: the state with the connection flag true and no
device credential is reachable — a freshly created, credential-less
client on which `Connect` succeeds (exactly the path `GenerateQR` takes
for a not-logged-in session) — refuting the claim that `isConnected` is
never true while `IsLoggedIn` is false. -/
theorem connected_without_credential_reachable :
    Reachable ⟨false, true, none⟩ ∧
    isConnected ⟨false, true, none⟩ = true ∧
    isLoggedIn ⟨false, true, none⟩ = false :=
  ⟨Reachable.connectStep ⟨false, false, none⟩ (Except.ok ())
     ⟨false, true, none⟩ (Reachable.init false) rfl,
   rfl, rfl⟩

/-- C4 amended: the two flags are independent — both a paired-but-not-
connected state (a stored credential before reconnecting) and a
connected-but-credential-less state (a not-logged-in session connects
to await pairing codes) are reachable. -/
theorem connection_and_credential_flags_independent :
    (Reachable ⟨true, false, none⟩ ∧
     isLoggedIn ⟨true, false, none⟩ = true ∧
     isConnected ⟨true, false, none⟩ = false) ∧
    (Reachable ⟨false, true, none⟩ ∧
     isConnected ⟨false, true, none⟩ = true ∧
     isLoggedIn ⟨false, true, none⟩ = false) :=
  ⟨⟨Reachable.init true, rfl, rfl⟩,
   ⟨Reachable.connectStep ⟨false, false, none⟩ (Except.ok ())
      ⟨false, true, none⟩ (Reachable.init false) rfl,
    rfl, rfl⟩⟩

/-- C6 counterexample: with a leftover code in the mailbox and zero
pairing-code events published within the timeout window
(`arrivals = []`), `GenerateQR` does not fail with the timeout error:
it consumes and returns the leftover code — refuting the claim for
states whose mailbox is non-empty at request time. -/
theorem generateQR_leftover_code_beats_timeout :
    (generateQR ⟨"", ""⟩ ⟨false, true, some "OLD"⟩ (Except.ok ()) []).result
        = Except.ok "OLD" ∧
    (generateQR ⟨"", ""⟩ ⟨false, true, some "OLD"⟩ (Except.ok ()) []).result
        ≠ Except.error AuthErr.qrTimeout := by
  constructor
  · rfl
  · intro h
    have hres : (generateQR ⟨"", ""⟩ ⟨false, true, some "OLD"⟩
        (Except.ok ()) []).result = Except.ok "OLD" := rfl
    rw [hres] at h
    exact Except.noConfusion h

/-- C6 amended: on a not-logged-in session whose mailbox is empty at
request time, if zero pairing-code events are published within the
timeout window then `GenerateQR` fails with the timeout error, that
error is a different constructor from every connect-failure error, and
the mailbox is left empty (no code consumed). -/
theorem generateQR_times_out_when_no_codes
    (u : AuthState) (c : ClientState)
    (hlog : c.loggedIn = false) (hslot : c.qrSlot = none) :
    (generateQR u c (Except.ok ()) []).result = Except.error AuthErr.qrTimeout ∧
    (generateQR u c (Except.ok ()) []).client.qrSlot = none ∧
    (∀ e, AuthErr.qrTimeout ≠ AuthErr.connectFailed e) := by
  have hnl : isLoggedIn c = false := hlog
  refine ⟨?_, ?_, fun e h => by cases h⟩ <;>
  · unfold generateQR
    rw [hnl]
    simp only [Bool.false_eq_true, if_false]
    cases hct : connect c (Except.ok ()) with
    | error e =>
      unfold connect at hct
      cases hic : isConnected c <;> simp [hic] at hct
    | ok c1 =>
      obtain ⟨h1, -⟩ := connect_ok_preserves c (Except.ok ()) c1 hct
      rw [hslot] at h1
      simp [h1]

/-- C6 amended witness. -/
theorem generateQR_times_out_when_no_codes_witness :
    (⟨false, false, none⟩ : ClientState).loggedIn = false ∧
    (⟨false, false, none⟩ : ClientState).qrSlot = none ∧
    ((generateQR ⟨"", ""⟩ ⟨false, false, none⟩ (Except.ok ()) []).result =
        Except.error AuthErr.qrTimeout ∧
     (generateQR ⟨"", ""⟩ ⟨false, false, none⟩ (Except.ok ()) []).client.qrSlot = none ∧
     (∀ e, AuthErr.qrTimeout ≠ AuthErr.connectFailed e)) :=
  ⟨rfl, rfl,
   generateQR_times_out_when_no_codes ⟨"", ""⟩ ⟨false, false, none⟩ rfl rfl⟩

/-- C8: `handleEvent` schedules exactly one delayed reconnect attempt
for a disconnect event and none for any other event; and when that
single attempt fails, no further automatic attempt is scheduled and the
state left by the disconnect event remains not connected. -/
theorem reconnect_supervisor_single_attempt
    (c : ClientState) (handlers : List Nat) (ev : WAEvent) (e : String) :
    (handleEvent c handlers ev).reconnectsScheduled =
      (if ev = WAEvent.disconnectedEv then 1 else 0) ∧
    reconnectAttempt (handleEvent c handlers WAEvent.disconnectedEv).state
        (Except.error e) =
      ((handleEvent c handlers WAEvent.disconnectedEv).state, 0) ∧
    (handleEvent c handlers WAEvent.disconnectedEv).state.connected = false := by
  refine ⟨?_, ?_, ?_⟩
  · cases ev <;> simp [handleEvent]
  · simp [handleEvent, reconnectAttempt, connect, isConnected, setConnected]
  · simp [handleEvent, setConnected]

/-- C9: for an inbound-message event the dispatcher's deliveries are
exactly the derived "message received" event fanned out to every
registered handler (only when the extracted text is non-empty) followed
by the original event fanned out to every registered handler; the
extracted text comes from the conversation field or, when that is
empty, from the non-empty extended-text field, and is empty when both
are; and for every event the original is delivered to every registered
handler. -/
theorem message_dispatch_extraction_and_fanout
    (c : ClientState) (handlers : List Nat) (sender conv : String)
    (ext : Option String) (h : Nat) (ev : WAEvent) (hmem : h ∈ handlers) :
    (handleEvent c handlers (WAEvent.message sender conv ext)).dispatched =
      (if extractBody conv ext ≠ "" then
          fanout handlers (Payload.derived ⟨sender, extractBody conv ext⟩)
        else []) ++
        fanout handlers (Payload.original (WAEvent.message sender conv ext)) ∧
    (conv ≠ "" → extractBody conv ext = conv) ∧
    (∀ t, conv = "" → ext = some t → t ≠ "" → extractBody conv ext = t) ∧
    (conv = "" → (ext = none ∨ ext = some "") → extractBody conv ext = "") ∧
    (h, Payload.original ev) ∈ (handleEvent c handlers ev).dispatched := by
  have hfan : ∀ p : Payload, (h, p) ∈ fanout handlers p := by
    intro p
    simp only [fanout]
    exact List.mem_map_of_mem (fun x => (x, p)) hmem
  refine ⟨rfl, ?_, ?_, ?_, ?_⟩
  · intro hc
    simp [extractBody, hc]
  · intro t hc he ht
    subst hc; subst he
    simp [extractBody, ht]
  · intro hc hd
    subst hc
    rcases hd with h2 | h2 <;> subst h2 <;> simp [extractBody]
  · cases ev with
    | message s cv e2 => exact List.mem_append_right _ (hfan _)
    | connectedEv => exact hfan _
    | disconnectedEv => exact hfan _
    | qr code => exact hfan _
    | loggedOut => exact hfan _

/-- C9 witness. -/
theorem message_dispatch_extraction_and_fanout_witness :
    (7 : Nat) ∈ [7, 9] ∧
    ((handleEvent ⟨true, true, none⟩ [7, 9] (WAEvent.message "alice" "" (some "hola"))).dispatched =
      (if extractBody "" (some "hola") ≠ "" then
          fanout [7, 9] (Payload.derived ⟨"alice", extractBody "" (some "hola")⟩)
        else []) ++
        fanout [7, 9] (Payload.original (WAEvent.message "alice" "" (some "hola"))) ∧
     (("" : String) ≠ "" → extractBody "" (some "hola") = "") ∧
     (∀ t, ("" : String) = "" → (some "hola" : Option String) = some t → t ≠ "" →
        extractBody "" (some "hola") = t) ∧
     (("" : String) = "" →
        ((some "hola" : Option String) = none ∨ (some "hola" : Option String) = some "") →
        extractBody "" (some "hola") = "") ∧
     (7, Payload.original WAEvent.loggedOut) ∈
        (handleEvent ⟨true, true, none⟩ [7, 9] WAEvent.loggedOut).dispatched) :=
  ⟨by decide,
   message_dispatch_extraction_and_fanout ⟨true, true, none⟩ [7, 9] "alice" ""
     (some "hola") 7 WAEvent.loggedOut (by decide)⟩

/-- C10: the keyword matching of `ProcessIncomingMessage` is
case-insensitive substring containment with the confirmation keywords
taking precedence: on a connected client with a successful send, a body
whose lowered form contains `sí` or `si` yields status `confirmed`
(even if it also contains `no`); a body whose lowered form contains
`no` but neither `sí` nor `si` yields `cancelled`; any other body
yields `unknown`. -/
theorem processIncomingMessage_keyword_precedence
    (c : ClientState) (msgID phone body : String) (hconn : c.connected = true) :
    (containsSub (toLowerGo body) "sí" = true ∨ containsSub (toLowerGo body) "si" = true →
      processIncomingMessage c (Except.ok msgID) phone body =
        Except.ok ⟨phone, confirmResponse, "confirmed"⟩) ∧
    (containsSub (toLowerGo body) "sí" = false → containsSub (toLowerGo body) "si" = false →
      containsSub (toLowerGo body) "no" = true →
      processIncomingMessage c (Except.ok msgID) phone body =
        Except.ok ⟨phone, cancelResponse, "cancelled"⟩) ∧
    (containsSub (toLowerGo body) "sí" = false → containsSub (toLowerGo body) "si" = false →
      containsSub (toLowerGo body) "no" = false →
      processIncomingMessage c (Except.ok msgID) phone body =
        Except.ok ⟨phone, unknownResponse, "unknown"⟩) := by
  have hsend : (send c (Except.ok msgID)).result = Except.ok msgID := by
    simp [send, isConnected, hconn]
  refine ⟨?_, ?_, ?_⟩
  · rintro (h1 | h1) <;>
      simp [processIncomingMessage, isConnected, hconn, hsend,
        classifyBookingResponse, h1]
  · intro h1 h2 h3
    simp [processIncomingMessage, isConnected, hconn, hsend,
      classifyBookingResponse, h1, h2, h3]
  · intro h1 h2 h3
    simp [processIncomingMessage, isConnected, hconn, hsend,
      classifyBookingResponse, h1, h2, h3]

/-- C10 witness: the body `Sİ, pero no` lowers (via the Unicode simple
mapping of `İ` to `i`) to `si, pero no`, which contains both the
confirmation keyword `si` and `no`, and is classified `confirmed`. -/
theorem processIncomingMessage_keyword_precedence_witness :
    (⟨true, true, none⟩ : ClientState).connected = true ∧
    toLowerGo "Sİ, pero no" = "si, pero no" ∧
    containsSub (toLowerGo "Sİ, pero no") "si" = true ∧
    containsSub (toLowerGo "Sİ, pero no") "no" = true ∧
    ((containsSub (toLowerGo "Sİ, pero no") "sí" = true ∨
        containsSub (toLowerGo "Sİ, pero no") "si" = true →
      processIncomingMessage ⟨true, true, none⟩ (Except.ok "MSG-1") "+56911111111" "Sİ, pero no" =
        Except.ok ⟨"+56911111111", confirmResponse, "confirmed"⟩) ∧
     (containsSub (toLowerGo "Sİ, pero no") "sí" = false →
      containsSub (toLowerGo "Sİ, pero no") "si" = false →
      containsSub (toLowerGo "Sİ, pero no") "no" = true →
      processIncomingMessage ⟨true, true, none⟩ (Except.ok "MSG-1") "+56911111111" "Sİ, pero no" =
        Except.ok ⟨"+56911111111", cancelResponse, "cancelled"⟩) ∧
     (containsSub (toLowerGo "Sİ, pero no") "sí" = false →
      containsSub (toLowerGo "Sİ, pero no") "si" = false →
      containsSub (toLowerGo "Sİ, pero no") "no" = false →
      processIncomingMessage ⟨true, true, none⟩ (Except.ok "MSG-1") "+56911111111" "Sİ, pero no" =
        Except.ok ⟨"+56911111111", unknownResponse, "unknown"⟩)) :=
  ⟨rfl, by decide, by decide, by decide,
   processIncomingMessage_keyword_precedence ⟨true, true, none⟩ "MSG-1"
     "+56911111111" "Sİ, pero no" rfl⟩

end Glidpa
